import Mathlib

/-!
Verification of the Citrex exchange client (`citrex/client.py`,
`citrex/utils.py`, `citrex/enums.py`) against its specification.

The Python source is shallowly embedded: pure computations become Lean
functions over `ℤ`/`ℕ`, Python exceptions become an `Except PyError`
result, and the network / blockchain environment is passed in explicitly
(responses, allowances, receipt-poll oracles).  Machine floating point
(`quantity * 1e18` in `withdraw`) is modelled by exact integer arithmetic
with correct rounding to 53 significant bits (round to nearest, ties to
even), which is IEEE-754 binary64 behaviour in the value ranges exercised
here (no overflow or subnormals).  Python `Decimal` arithmetic
(`Decimal(str(q)) * Decimal(1e18)` in `create_order` and `deposit`) is
modelled with the default decimal context: 28 significant digits,
ROUND_HALF_EVEN.  `ℚ` appears only on the specification side (exact
values of decimal literals and of floats).
-/

deriving instance DecidableEq for Except

namespace Citrex

/-- The Python exceptions raised by the client code. -/
inductive PyError
  | attributeError (msg : String)
  | userInputValidationError (msg : String)
  | clientError (msg : String)
  | generic (msg : String)
  deriving DecidableEq, Repr

/-- A caller-supplied decimal literal `c × 10⁻ᵏ`: the exact value the
caller intends, as `str(quantity)` renders it. -/
structure Dec where
  c : ℤ
  k : ℕ
  deriving DecidableEq, Repr

/-- The exact rational value of a decimal literal. -/
def Dec.val (d : Dec) : ℚ := (d.c : ℚ) / (10 : ℚ) ^ d.k

/-- Number of decimal digits of a natural number (`digitsLen fuel n`;
fuel-based so that the kernel can evaluate it on concrete inputs). -/
def digitsLen : ℕ → ℕ → ℕ
  | 0, _ => 1
  | fuel + 1, n => if n < 10 then 1 else digitsLen fuel (n / 10) + 1

/-- Number of decimal digits of a natural number (200 digits of fuel is
far beyond every value arising here). -/
def decDigits (n : ℕ) : ℕ := digitsLen 200 n

/-- Round `n / d` to the nearest natural number, ties to even
(`ROUND_HALF_EVEN`, the default decimal-context rounding, and also the
mantissa rounding of binary64). -/
def roundHalfEvenDiv (n d : ℕ) : ℕ :=
  let q := n / d
  let r := n % d
  if 2 * r < d then q
  else if d < 2 * r then q + 1
  else if q % 2 = 0 then q else q + 1

/-- Python `Decimal` context rounding of a product coefficient: the
default context keeps 28 significant digits.  Returns `(C', s)` with
value `C' · 10^s`. -/
def decCtxRound (C : ℕ) : ℕ × ℕ :=
  let dg := decDigits C
  if dg ≤ 28 then (C, 0)
  else (roundHalfEvenDiv C (10 ^ (dg - 28)), dg - 28)

/-- `int(Decimal(str(q)) * Decimal(1e18))` for the decimal literal
`q = c × 10⁻ᵏ` (the scaling used by `create_order`,
`cancel_and_replace_order` and `deposit`).  `Decimal(1e18)` is exactly
`10^18` (the float literal `1e18` is exact), the product's ideal
coefficient is `|c| · 10^18`, the default context rounds it to 28
significant digits, and `int()` truncates the signed value toward zero
(natural-number division of the magnitude). -/
def decScale (d : Dec) : ℤ :=
  let C := d.c.natAbs * 10 ^ 18
  let p := decCtxRound C
  d.c.sign * ((p.1 * 10 ^ p.2) / 10 ^ d.k : ℕ)

/-- An IEEE-754 binary64 value `sgn · m · 2^e` (sign, 53-bit mantissa,
binary exponent); exact in the ranges used by the client. -/
structure F64 where
  sgn : ℤ
  m : ℕ
  e : ℤ
  deriving DecidableEq, Repr

/-- The exact rational value of a binary64 number. -/
def F64.val (x : F64) : ℚ := ((x.sgn * x.m : ℤ) : ℚ) * (2 : ℚ) ^ x.e

/-- Scale a positive fraction `n / d` by powers of two until it lies in
`[2^52, 2^53)`; returns the scaled fraction and the binary exponent
(fuel-based search, exact integer arithmetic). -/
def normFl : ℕ → ℕ → ℕ → ℤ → ℕ × ℕ × ℤ
  | 0, n, d, e => (n, d, e)
  | fuel + 1, n, d, e =>
    if n < 2 ^ 52 * d then normFl fuel (2 * n) d (e - 1)
    else if 2 ^ 53 * d ≤ n then normFl fuel n (2 * d) (e + 1)
    else (n, d, e)

/-- Correct rounding of the exact value `c / den · 2^e` to binary64
(53 significant bits, round to nearest, ties to even). -/
def flOfScaled (c : ℤ) (den : ℕ) (e : ℤ) : F64 :=
  if c = 0 then ⟨0, 0, 0⟩
  else
    let p := normFl 4500 c.natAbs den 0
    ⟨c.sign, roundHalfEvenDiv p.1 p.2.1, p.2.2 + e⟩

/-- Correct rounding of the exact value `c / den` to binary64: the float
a Python caller obtains for that value. -/
def flOfFrac (c : ℤ) (den : ℕ) : F64 := flOfScaled c den 0

/-- The binary64 value of a decimal literal (what `float(q)` holds). -/
def flOfDec (d : Dec) : F64 := flOfFrac d.c (10 ^ d.k)

/-- Python float multiplication: the exact product of the two binary64
values, correctly rounded back to binary64. -/
def fmul (a b : F64) : F64 :=
  flOfScaled (a.sgn * b.sgn * (a.m * b.m)) 1 (a.e + b.e)

/-- Python `int()` of a float: truncation toward zero. -/
def F64.toInt (x : F64) : ℤ :=
  match x.e with
  | .ofNat n => x.sgn * (x.m * 2 ^ n : ℕ)
  | .negSucc n => x.sgn * (x.m / 2 ^ (n + 1) : ℕ)

/-- `int(quantity * 1e18)` in `withdraw`: the caller's decimal value is
held as a binary64 float and multiplied (in floating point) by the float
literal `1e18` (itself the binary64 rounding of `10^18`), then truncated
toward zero. -/
def withdraw_scaled (d : Dec) : ℤ :=
  (fmul (flOfDec d) (flOfFrac (10 ^ 18) 1)).toInt

/-! ## Route lists and endpoint validation (`CitrexClient`) -/

/-- `CitrexClient.private_functions`, verbatim (including the duplicated
`/v1/order` entry). -/
def private_functions : List String :=
  ["/v1/withdraw", "/v1/order", "/v1/order/cancel-and-replace", "/v1/order",
   "/v1/openOrders", "/v1/orders", "/v1/balances", "/v1/positionRisk",
   "/v1/approved-signers", "/v1/session/login", "/v1/referral/add-referee",
   "/v1/session/logout", "/v1/account-health"]

/-- `CitrexClient.public_functions`, verbatim. -/
def public_functions : List String :=
  ["/v1/products", "/v1/products/{product_symbol}",
   "/v1/ticker/24hr?symbol={symbol}", "/v1/trade-history", "/v1/time",
   "/v1/uiKlines", "/v1/ticker/24hr", "/v1/depth"]

/-- The `wallet` attribute of a client: `__init__` assigns it only when a
private key is supplied, so on a keyless client the attribute is unset. -/
inductive WalletAttr
  | unset
  | account (key : String)
  deriving DecidableEq, Repr

/-- Python truthiness of `self.wallet`: reading an unset attribute raises
`AttributeError`; an `eth_account` Account object is always truthy. -/
def walletTruthy : WalletAttr → Except PyError Bool
  | .unset => .error (.attributeError
      "CitrexClient object has no attribute wallet")
  | .account _ => .ok true

/-- `CitrexClient._validate_function`.  The Python function returns `True`
on the public and key-holding private paths and falls through (returning
`None`) otherwise, hence the `Option Bool` result. -/
def validate_function (wallet : WalletAttr) (endpoint : String) :
    Except PyError (Option Bool) :=
  if endpoint ∉ private_functions ++ public_functions then
    .error (.clientError ("Invalid endpoint: " ++ endpoint ++ " Not in " ++
      String.intercalate ", " (private_functions ++ public_functions)))
  else if endpoint ∈ public_functions then .ok (some true)
  else if endpoint ∈ private_functions then
    (walletTruthy wallet).bind fun t =>
      if !t then
        .error (.userInputValidationError ("Private function " ++ endpoint ++
          " requires a private key please provide one at initialization."))
      else .ok (some true)
  else .ok none

/-! ## Canonicalization (`citrex/utils.py`) and the dispatcher -/

/-- A JSON-able Python value as it occurs in outgoing message dicts. -/
inductive PyVal
  | int (n : ℤ)
  | str (s : String)
  | bool (b : Bool)
  deriving DecidableEq, Repr

/-- Python `str()` on such a value. -/
def pyStr : PyVal → String
  | .int n => toString n
  | .str s => s
  | .bool b => if b then "True" else "False"

/-- `STRING_KEYS` from `citrex/utils.py`. -/
def STRING_KEYS : List String := ["price", "quantity"]

/-- `from_message_to_payload`: string-encode the values of the designated
keys, leave every other entry untouched. -/
def from_message_to_payload (message : List (String × PyVal)) :
    List (String × PyVal) :=
  message.map fun kv => if kv.1 ∈ STRING_KEYS then (kv.1, .str (pyStr kv.2)) else kv

/-- Python `not` applied to `_validate_function`'s return value. -/
def pyNotOpt : Option Bool → Bool
  | none => true
  | some b => !b

/-- `send_message_to_endpoint`, up to the HTTP round trip: validate the
endpoint, canonicalize the body, raise on a non-200 status.  The value
returned on success is the payload actually transmitted (the response
JSON itself is opaque environment data). -/
def send_message_to_endpoint (wallet : WalletAttr) (endpoint : String)
    (message : List (String × PyVal)) (status_code : ℕ) :
    Except PyError (List (String × PyVal)) :=
  (validate_function wallet endpoint).bind fun v =>
    if pyNotOpt v then .error (.clientError ("Invalid endpoint: " ++ endpoint))
    else if status_code ≠ 200 then .error (.generic "Failed to send message")
    else .ok (from_message_to_payload message)

/-! ## Order construction (`create_order`) -/

inductive OrderSide
  | BUY
  | SELL
  deriving DecidableEq, Repr

/-- `OrderSide.value` from `citrex/enums.py`. -/
def OrderSide.val : OrderSide → Bool
  | .BUY => true
  | .SELL => false

inductive OrderType
  | LIMIT
  | LIMIT_MAKER
  | MARKET
  deriving DecidableEq, Repr

/-- `OrderType.value` from `citrex/enums.py`. -/
def OrderType.val : OrderType → ℕ
  | .LIMIT => 0
  | .LIMIT_MAKER => 1
  | .MARKET => 2

inductive TimeInForce
  | GTC
  | FOK
  | IOC
  deriving DecidableEq, Repr

/-- `TimeInForce.value` from `citrex/enums.py`. -/
def TimeInForce.val : TimeInForce → ℕ
  | .GTC => 0
  | .FOK => 1
  | .IOC => 2

/-- The `params` dict `create_order` assembles for the `Order` message. -/
structure OrderParams where
  subAccountId : ℤ
  productId : ℤ
  quantity : ℤ
  isBuy : Bool
  orderType : ℕ
  timeInForce : ℕ
  nonce : ℤ
  expiration : ℤ
  account : String
  price : Option ℤ
  deriving DecidableEq, Repr

/-- `create_order`, up to signing and dispatch: `ts` is the
epoch-millisecond timestamp `_current_timestamp()` returns at the call;
`quantity` and `price` are the caller's decimal literals. -/
def create_order (ts : ℤ) (account : String) (subaccount_id product_id : ℤ)
    (quantity : Dec) (side : OrderSide) (order_type : OrderType)
    (time_in_force : TimeInForce) (price : Option Dec) (nonce : ℤ) :
    Except PyError OrderParams :=
  if price = none ∧ order_type = OrderType.LIMIT then
    .error (.userInputValidationError "Price is required for a limit order.")
  else
    let nonce := if nonce = 0 then ts else nonce
    .ok ⟨subaccount_id, product_id, decScale quantity, side.val,
         order_type.val, time_in_force.val, nonce,
         (ts + 1000 * 60 * 60 * 24) * 1000, account, price.map decScale⟩

/-! ## Session login (`create_authenticated_session_with_service`, `login`) -/

/-- Python `dict.get(key)` over a JSON object with string fields. -/
def dictGet (d : List (String × String)) (key : String) : Option String :=
  (d.find? fun kv => kv.1 == key).map fun kv => kv.2

/-- The literal login text built in
`create_authenticated_session_with_service`. -/
def loginMessageText (domainName : String) : String :=
  "I would like to log into " ++ domainName ++ " finance"

/-- The `LoginMessage` field content passed to
`generate_and_sign_message`. -/
structure LoginMsg where
  account : String
  message : String
  timestamp : ℤ
  deriving DecidableEq, Repr

/-- The login message `create_authenticated_session_with_service`
assembles, before signing. -/
def build_login_message (domainName account : String) (ts : ℤ) : LoginMsg :=
  ⟨account, loginMessageText domainName, ts⟩

/-- `create_authenticated_session_with_service`, given the decoded JSON
the login endpoint returned (`none` models JSON `null`).  On a `null`
response, `response.get("value")` raises `AttributeError`; otherwise the
new `session_cookie` is `response.get("value")` and the raw response is
returned. -/
def create_authenticated_session (resp : Option (List (String × String))) :
    Except PyError (Option String × Option (List (String × String))) :=
  match resp with
  | none => .error (.attributeError "NoneType object has no attribute get")
  | some d => .ok (dictGet d "value", some d)

/-- `login`: call `create_authenticated_session_with_service` and raise
`Exception("Failed to login")` if the returned response is `None`.
Returns the stored `session_cookie`. -/
def login (resp : Option (List (String × String))) :
    Except PyError (Option String) :=
  match create_authenticated_session resp with
  | .error e => .error e
  | .ok (cookie, response) =>
    match response with
    | none => .error (.generic "Failed to login")
    | some _ => .ok cookie

/-! ## Referral binding (`set_referral_code`) and `__init__` -/

/-- Does the list start with the given pattern? -/
def startsWithL : List Char → List Char → Bool
  | _, [] => true
  | [], _ :: _ => false
  | c :: cs, p :: ps => c == p && startsWithL cs ps

/-- Does the pattern occur as a contiguous sublist? -/
def hasSubL : List Char → List Char → Bool
  | s, pat =>
    startsWithL s pat ||
      (match s with
       | [] => false
       | _ :: cs => hasSubL cs pat)

/-- Python `pat in s` substring containment. -/
def containsSub (s pat : String) : Bool := hasSubL s.toList pat.toList

/-- `set_referral_code`: the referral POST either returns or raises an
exception whose message is `e` (the `post` argument).  A message
containing `"user already referred"` is swallowed; any other exception is
re-raised. -/
def set_referral_code (post : Except String Unit) : Except PyError Unit :=
  match post with
  | .ok _ => .ok ()
  | .error e =>
    if containsSub e "user already referred" then .ok ()
    else .error (.generic e)

/-- The `try: self.set_referral_code() except Exception: pass` step of
`__init__`: every referral failure is suppressed. -/
def init_referral_step (post : Except String Unit) : Except PyError Unit :=
  match set_referral_code post with
  | .ok _ => .ok ()
  | .error _ => .ok ()

/-- The network actions `__init__` can take, in order. -/
inductive InitAction
  | login
  | referral
  deriving DecidableEq, Repr

/-- The environment a client construction runs against: the JSON the
login endpoint returns, and whether the referral POST raises (and with
which message). -/
structure InitEnv where
  loginResponse : Option (List (String × String))
  referralError : Option String

/-- The client attributes relevant to the claims, after construction. -/
structure ClientState where
  wallet : WalletAttr
  subaccount_id : Option ℤ
  session_cookie : Option String
  deriving DecidableEq, Repr

/-- `CitrexClient.__init__`, after the static configuration lookup: with
a private key it validates `subaccount_id`, logs in, then attempts the
referral binding inside a broad `try`/`except: pass`; without a key it
does none of this (in particular `self.wallet` stays unset).  Also
returns the ordered trace of network actions taken. -/
def clientInit (private_key : Option String) (subaccount_id : ℤ)
    (env : InitEnv) : Except PyError ClientState × List InitAction :=
  match private_key with
  | none => (.ok ⟨.unset, none, none⟩, [])
  | some key =>
    if ¬(0 ≤ subaccount_id ∧ subaccount_id ≤ 255) then
      (.error (.userInputValidationError ("Invalid subaccount_id=" ++
        toString subaccount_id ++ ". Expected 0 <= subaccount_id <= 255.")), [])
    else
      match login env.loginResponse with
      | .error e => (.error e, [.login])
      | .ok cookie =>
        match init_referral_step
            (match env.referralError with
             | none => .ok ()
             | some m => .error m) with
        | .ok _ =>
          (.ok ⟨.account key, some subaccount_id, cookie⟩, [.login, .referral])
        | .error e => (.error e, [.login, .referral])

/-! ## Receipt polling (`wait_for_transaction`) and `deposit` -/

/-- The outcome of one `get_transaction_receipt` call: a receipt with the
given status, a `None` receipt, a `TransactionNotFound` exception, or any
other node-level exception. -/
inductive PollResult
  | receipt (status : ℕ)
  | noneReceipt
  | notFound
  | nodeError (msg : String)
  deriving DecidableEq, Repr

/-- The `while True` loop of `wait_for_transaction`: `poll i` is the
outcome of the `i`-th `get_transaction_receipt` call, `t` the remaining
`timeout` countdown, `s` the seconds slept so far (one `time.sleep(1)`
per `TransactionNotFound`).  A receipt breaks the loop and yields
`status == 1`; `TransactionNotFound` sleeps and decrements; a `None`
receipt decrements without sleeping; any other exception propagates;
reaching `timeout == 0` raises `Exception("Timeout")`. -/
def waitLoop (poll : ℕ → PollResult) : ℕ → ℕ → ℕ → Except PyError Bool × ℕ
  | _, 0, s => (.error (.generic "Timeout"), s)
  | i, t + 1, s =>
    match poll i with
    | .receipt status => (.ok (status == 1), s)
    | .noneReceipt => waitLoop poll (i + 1) t s
    | .notFound => waitLoop poll (i + 1) t (s + 1)
    | .nodeError m => (.error (.generic m), s)

/-- `wait_for_transaction` with an explicit `timeout` argument. -/
def wait_for_transaction (poll : ℕ → PollResult) (timeout : ℕ) :
    Except PyError Bool × ℕ :=
  waitLoop poll 0 timeout 0

/-- `wait_for_transaction` at its default `timeout=60`. -/
def wait_for_transaction_default (poll : ℕ → PollResult) :
    Except PyError Bool × ℕ :=
  wait_for_transaction poll 60

/-- An on-chain transaction broadcast by `deposit`. -/
inductive Txn
  | approve (spender : String) (amount : ℤ)
  | depositCall (account : String) (subAccountId : ℤ) (amount : ℤ) (asset : String)
  deriving DecidableEq, Repr

/-- The blockchain environment `deposit` runs against: the current
allowance of the protocol contract, the two contract addresses, and the
receipt-poll oracles for the approval and deposit transactions. -/
structure DepositEnv where
  allowance : ℤ
  protocolAddress : String
  assetAddress : String
  approvePoll : ℕ → PollResult
  depositPoll : ℕ → PollResult

/-- `deposit`: scale the quantity with `Decimal` arithmetic, broadcast an
approval for exactly `required_wei` only when the allowance is short
(awaiting its receipt), then broadcast the deposit call and return
`wait_for_transaction`'s result for it.  The first component is the
ordered list of transactions broadcast. -/
def deposit (env : DepositEnv) (account : String) (subaccount_id : ℤ)
    (quantity : Dec) : List Txn × Except PyError Bool :=
  let required_wei := decScale quantity
  if env.allowance < required_wei then
    let approveTxn := Txn.approve env.protocolAddress required_wei
    match wait_for_transaction env.approvePoll 60 with
    | (.error e, _) => ([approveTxn], .error e)
    | (.ok _, _) =>
      ([approveTxn,
        Txn.depositCall account subaccount_id required_wei env.assetAddress],
       (wait_for_transaction env.depositPoll 60).1)
  else
    ([Txn.depositCall account subaccount_id required_wei env.assetAddress],
     (wait_for_transaction env.depositPoll 60).1)

/-! ## Helper lemmas -/

theorem except_bind_ok {ε α β : Type} (a : α) (f : α → Except ε β) :
    (Except.ok a).bind f = f a := rfl

theorem except_bind_error {ε α β : Type} (e : ε) (f : α → Except ε β) :
    (Except.error e : Except ε α).bind f = (.error e : Except ε β) := rfl

theorem digitsLen_le : ∀ m, 0 < m → ∀ fuel n, m ≤ fuel → n < 10 ^ m →
    digitsLen fuel n ≤ m := by
  intro m
  induction m with
  | zero => omega
  | succ m ih =>
    intro _ fuel n hfuel hn
    match fuel, hfuel with
    | fuel + 1, _ =>
      rw [digitsLen]
      by_cases h10 : n < 10
      · simp [h10]
      · simp only [h10, if_false]
        rcases Nat.eq_zero_or_pos m with h0 | hm'
        · subst h0
          norm_num at hn
          omega
        · have hdiv : n / 10 < 10 ^ m := by
            rw [Nat.div_lt_iff_lt_mul (by norm_num)]
            calc n < 10 ^ (m + 1) := hn
              _ = 10 ^ m * 10 := by ring
          have := ih hm' fuel (n / 10) (by omega) hdiv
          omega

theorem decDigits_le (m n : ℕ) (h1 : 0 < m) (h2 : m ≤ 200) (h : n < 10 ^ m) :
    decDigits n ≤ m :=
  digitsLen_le m h1 200 n h2 h

theorem roundHalfEvenDiv_of_dvd (n d : ℕ) (hd : 0 < d) (hdvd : d ∣ n) :
    roundHalfEvenDiv n d = n / d := by
  obtain ⟨c, rfl⟩ := hdvd
  unfold roundHalfEvenDiv
  simp [Nat.mul_mod_right, hd]

/-- The scaling used by `create_order`, `cancel_and_replace_order` and
`deposit` is exact whenever the literal's coefficient stays within the
28-significant-digit decimal context. -/
theorem decScale_eq_exact (d : Dec) (hk : d.k ≤ 18)
    (hc : d.c.natAbs < 10 ^ 28) :
    decScale d = d.c * 10 ^ (18 - d.k) := by
  have hrfl : decCtxRound (d.c.natAbs * 10 ^ 18) =
      if decDigits (d.c.natAbs * 10 ^ 18) ≤ 28 then (d.c.natAbs * 10 ^ 18, 0)
      else (roundHalfEvenDiv (d.c.natAbs * 10 ^ 18)
              (10 ^ (decDigits (d.c.natAbs * 10 ^ 18) - 28)),
            decDigits (d.c.natAbs * 10 ^ 18) - 28) := rfl
  have key : ((decCtxRound (d.c.natAbs * 10 ^ 18)).1 : ℕ) *
      10 ^ (decCtxRound (d.c.natAbs * 10 ^ 18)).2 = d.c.natAbs * 10 ^ 18 := by
    rw [hrfl]
    split_ifs with hdg
    · simp
    · have hdg46 : decDigits (d.c.natAbs * 10 ^ 18) ≤ 46 := by
        apply decDigits_le 46 _ (by norm_num) (by norm_num)
        calc d.c.natAbs * 10 ^ 18 < 10 ^ 28 * 10 ^ 18 :=
              mul_lt_mul_of_pos_right hc (by positivity)
          _ = 10 ^ 46 := by norm_num
      have hs18 : decDigits (d.c.natAbs * 10 ^ 18) - 28 ≤ 18 := by omega
      have hdvd : (10 : ℕ) ^ (decDigits (d.c.natAbs * 10 ^ 18) - 28) ∣
          d.c.natAbs * 10 ^ 18 :=
        Dvd.dvd.mul_left (pow_dvd_pow 10 hs18) _
      show roundHalfEvenDiv (d.c.natAbs * 10 ^ 18)
          (10 ^ (decDigits (d.c.natAbs * 10 ^ 18) - 28)) *
          10 ^ (decDigits (d.c.natAbs * 10 ^ 18) - 28) = d.c.natAbs * 10 ^ 18
      rw [roundHalfEvenDiv_of_dvd _ _ (by positivity) hdvd]
      exact Nat.div_mul_cancel hdvd
  show (d.c.sign *
      (((decCtxRound (d.c.natAbs * 10 ^ 18)).1 *
        10 ^ (decCtxRound (d.c.natAbs * 10 ^ 18)).2) / 10 ^ d.k : ℕ) : ℤ) =
    d.c * 10 ^ (18 - d.k)
  rw [key]
  have h18 : (10 : ℕ) ^ 18 = 10 ^ (18 - d.k) * 10 ^ d.k := by
    rw [← pow_add, Nat.sub_add_cancel hk]
  have hdiv : d.c.natAbs * 10 ^ 18 / 10 ^ d.k = d.c.natAbs * 10 ^ (18 - d.k) := by
    rw [h18, ← mul_assoc, Nat.mul_div_cancel _ (by positivity)]
  rw [hdiv]
  calc (d.c.sign * ((d.c.natAbs * 10 ^ (18 - d.k) : ℕ) : ℤ) : ℤ)
      = (d.c.sign * (d.c.natAbs : ℤ)) * 10 ^ (18 - d.k) := by push_cast; ring
    _ = d.c * 10 ^ (18 - d.k) := by rw [Int.sign_mul_natAbs]

/-- C1 (amended).  The `Decimal`-based fixed-point scaling used for
`quantity` and `price` in `create_order` (and for the quantity in
`deposit`), composed with division by `10^18`, recovers the caller's
decimal value exactly, for every literal with at most 18 fractional
digits whose coefficient has at most 28 significant digits (the default
decimal-context precision).  The claim's extension of this exactness to
the quantity scaling in `withdraw` is refuted by
`withdraw_float_scaling_drifts`: `withdraw` multiplies in binary floating
point. -/
theorem decimal_scaling_roundtrip (d : Dec) (hk : d.k ≤ 18)
    (hc : d.c.natAbs < 10 ^ 28) :
    (decScale d : ℚ) / 10 ^ 18 = d.val := by
  rw [decScale_eq_exact d hk hc, Dec.val]
  push_cast
  rw [div_eq_div_iff (by positivity) (by positivity), mul_assoc, ← pow_add,
    Nat.sub_add_cancel hk]

theorem decimal_scaling_roundtrip_witness :
    (Dec.mk 15 1).k ≤ 18 ∧ (Dec.mk 15 1).c.natAbs < 10 ^ 28 ∧
    (decScale ⟨15, 1⟩ : ℚ) / 10 ^ 18 = (Dec.mk 15 1).val :=
  ⟨by decide, by decide, decimal_scaling_roundtrip ⟨15, 1⟩ (by decide) (by decide)⟩

/-- C1 counterexample.  For the quantity `q = 10^19` (zero fractional
digits), `withdraw`'s scaling `int(quantity * 1e18)` does not round-trip:
binary64 cannot represent `10^37`, so the scaled integer is
`9999999999999999538762658202121142272 ≠ 10^37`.  Moreover even the
`Decimal`-based scaling drifts once the literal exceeds the context's 28
significant digits (second conjunct), which forces the coefficient bound
in the amended claim. -/
theorem withdraw_float_scaling_drifts :
    (withdraw_scaled ⟨10000000000000000000, 0⟩ : ℚ) / 10 ^ 18 ≠
      (Dec.mk 10000000000000000000 0).val ∧
    (decScale ⟨11111111111111111111111111111, 18⟩ : ℚ) / 10 ^ 18 ≠
      (Dec.mk 11111111111111111111111111111 18).val := by
  constructor
  · have h : withdraw_scaled ⟨10000000000000000000, 0⟩ =
        9999999999999999538762658202121142272 := by decide
    rw [h, Dec.val]
    norm_num
  · have h : decScale ⟨11111111111111111111111111111, 18⟩ =
        11111111111111111111111111110 := by decide
    rw [h, Dec.val]
    intro heq
    rw [div_eq_div_iff (by positivity) (by positivity)] at heq
    norm_num at heq

/-- C2.  A `create_order` call made at epoch-millisecond timestamp `ts`
with caller nonce `0` builds an `Order` message with `nonce = ts` and
`expiration = (ts + 86400000) * 1000` (the 24-hour offset in
milliseconds, then the whole value re-scaled by 1000); for quantity `1.5`
and price `20000.25` on a LIMIT buy of product 7, subaccount 2, the
scaled fields are `quantity = 1500000000000000000` and
`price = 20000250000000000000000`, `isBuy = true`, `orderType = 0`. -/
theorem order_nonce_expiration_and_example :
    (∀ (ts : ℤ) (account : String) (sub prod : ℤ) (q : Dec) (side : OrderSide)
        (ot : OrderType) (tif : TimeInForce) (pr : Option Dec) (p : OrderParams),
      create_order ts account sub prod q side ot tif pr 0 = .ok p →
      p.nonce = ts ∧ p.expiration = (ts + 86400000) * 1000) ∧
    (∀ (ts : ℤ) (account : String),
      create_order ts account 2 7 ⟨15, 1⟩ .BUY .LIMIT .GTC
          (some ⟨2000025, 2⟩) 0 =
        .ok ⟨2, 7, 1500000000000000000, true, 0, 0, ts,
             (ts + 86400000) * 1000, account,
             some 20000250000000000000000⟩) := by
  constructor
  · intro ts account sub prod q side ot tif pr p h
    by_cases hc : pr = none ∧ ot = OrderType.LIMIT
    · rw [create_order, if_pos hc] at h
      cases h
    · rw [create_order, if_neg hc] at h
      norm_num at h
      cases h
      exact ⟨rfl, by norm_num⟩
  · intro ts account
    rw [create_order, if_neg (by simp)]
    have hq : decScale ⟨15, 1⟩ = 1500000000000000000 := by decide
    have hp : decScale ⟨2000025, 2⟩ = 20000250000000000000000 := by decide
    norm_num [hq, hp, OrderSide.val, OrderType.val, TimeInForce.val, Option.map]

theorem order_nonce_expiration_witness :
    create_order 1700000000000 "0xAcc" 2 7 ⟨15, 1⟩ .BUY .LIMIT .GTC
        (some ⟨2000025, 2⟩) 0 =
      .ok ⟨2, 7, 1500000000000000000, true, 0, 0, 1700000000000,
           (1700000000000 + 86400000) * 1000, "0xAcc",
           some 20000250000000000000000⟩ ∧
    OrderParams.nonce ⟨2, 7, 1500000000000000000, true, 0, 0, 1700000000000,
        (1700000000000 + 86400000) * 1000, "0xAcc",
        some 20000250000000000000000⟩ = 1700000000000 :=
  ⟨order_nonce_expiration_and_example.2 1700000000000 "0xAcc",
   (order_nonce_expiration_and_example.1 1700000000000 "0xAcc" 2 7 ⟨15, 1⟩
      .BUY .LIMIT .GTC (some ⟨2000025, 2⟩) _
      (order_nonce_expiration_and_example.2 1700000000000 "0xAcc")).1⟩

/-- C3 (code evidence).  On a client constructed without a private key
the `wallet` attribute was never assigned, so dispatching a PRIVATE route
evaluates `if not self.wallet` against an unset attribute and raises
`AttributeError` — not the `UserInputValidationError` the spec promises
(that raise is unreachable, since a set wallet is a truthy Account
object).  Every PUBLIC route is dispatchable without a key (second
conjunct). -/
theorem keyless_private_route_attribute_error :
    validate_function .unset "/v1/withdraw" =
      .error (.attributeError "CitrexClient object has no attribute wallet") ∧
    (public_functions.all fun e =>
      validate_function .unset e == .ok (some true)) = true := by
  exact ⟨by decide, by decide⟩

theorem waitLoop_retry (poll : ℕ → PollResult) (i t s : ℕ)
    (h : poll i = PollResult.notFound) :
    waitLoop poll i (t + 1) s = waitLoop poll (i + 1) t (s + 1) := by
  rw [waitLoop, h]

theorem waitLoop_all_notFound (poll : ℕ → PollResult) :
    ∀ t i s, (∀ j, j < t → poll (i + j) = PollResult.notFound) →
      waitLoop poll i t s = (.error (.generic "Timeout"), s + t) := by
  intro t
  induction t with
  | zero => intro i s _; rfl
  | succ t ih =>
    intro i s h
    have h0 : poll i = PollResult.notFound := by
      have := h 0 (by omega)
      simpa using this
    rw [waitLoop_retry poll i t s h0]
    have h' : ∀ j, j < t → poll (i + 1 + j) = PollResult.notFound := by
      intro j hj
      rw [show i + 1 + j = i + (j + 1) by omega]
      exact h (j + 1) (by omega)
    rw [ih (i + 1) (s + 1) h']
    have : s + 1 + t = s + (t + 1) := by omega
    rw [this]

theorem waitLoop_receipt (poll : ℕ → PollResult) (st : ℕ) :
    ∀ k i t s, (∀ j, j < k → poll (i + j) = PollResult.notFound) →
      poll (i + k) = PollResult.receipt st → k < t →
      waitLoop poll i t s = (.ok (st == 1), s + k) := by
  intro k
  induction k with
  | zero =>
    intro i t s _ hk hlt
    match t, hlt with
    | t + 1, _ =>
      rw [waitLoop, show i + 0 = i from rfl] at *
      rw [hk]
      rfl
  | succ k ih =>
    intro i t s h hk hlt
    match t, hlt with
    | t + 1, hlt =>
      have h0 : poll i = PollResult.notFound := by
        have := h 0 (by omega)
        simpa using this
      rw [waitLoop_retry poll i t s h0]
      have h' : ∀ j, j < k → poll (i + 1 + j) = PollResult.notFound := by
        intro j hj
        rw [show i + 1 + j = i + (j + 1) by omega]
        exact h (j + 1) (by omega)
      have hk' : poll (i + 1 + k) = PollResult.receipt st := by
        rw [show i + 1 + k = i + (k + 1) by omega]
        exact hk
      rw [ih (i + 1) t (s + 1) h' hk' (by omega)]
      have : s + 1 + k = s + (k + 1) := by omega
      rw [this]

/-- C5.  `wait_for_transaction` is a bounded polling loop: the timeout
defaults to 60 and counts down; every `TransactionNotFound` response is
treated as still-pending and retried after one second of sleep; a
countdown that exhausts with no receipt raises the timeout error; any
other node-level error propagates immediately with no retry and no sleep;
a receipt obtained before exhaustion ends the loop with result
`status == 1`.  The second component of each result is the total number
of seconds slept (one per retry). -/
theorem receipt_polling_behaviour :
    (∀ poll, wait_for_transaction_default poll = wait_for_transaction poll 60) ∧
    (∀ (poll : ℕ → PollResult) i t s, poll i = PollResult.notFound →
      waitLoop poll i (t + 1) s = waitLoop poll (i + 1) t (s + 1)) ∧
    (∀ (poll : ℕ → PollResult) t,
      (∀ j, j < t → poll j = PollResult.notFound) →
      wait_for_transaction poll t = (.error (.generic "Timeout"), t)) ∧
    (∀ (poll : ℕ → PollResult) m t, poll 0 = PollResult.nodeError m →
      wait_for_transaction poll (t + 1) = (.error (.generic m), 0)) ∧
    (∀ (poll : ℕ → PollResult) st k t,
      (∀ j, j < k → poll j = PollResult.notFound) →
      poll k = PollResult.receipt st → k < t →
      wait_for_transaction poll t = (.ok (st == 1), k)) := by
  refine ⟨fun _ => rfl, waitLoop_retry, ?_, ?_, ?_⟩
  · intro poll t h
    rw [wait_for_transaction, waitLoop_all_notFound poll t 0 0 (by simpa using h)]
    rw [Nat.zero_add]
  · intro poll m t h
    rw [wait_for_transaction, waitLoop, h]
  · intro poll st k t h hk hlt
    rw [wait_for_transaction,
      waitLoop_receipt poll st k 0 t 0 (by simpa using h) (by simpa using hk) hlt]
    rw [Nat.zero_add]

theorem receipt_polling_behaviour_witness :
    (∀ j, j < 2 → (fun i => if i < 2 then PollResult.notFound
        else PollResult.receipt 1) j = PollResult.notFound) ∧
    wait_for_transaction
      (fun i => if i < 2 then PollResult.notFound else PollResult.receipt 1)
      60 = (.ok true, 2) :=
  ⟨by decide,
   receipt_polling_behaviour.2.2.2.2
     (fun i => if i < 2 then PollResult.notFound else PollResult.receipt 1)
     1 2 60 (by decide) (by decide) (by decide)⟩

theorem init_referral_step_ok (post : Except String Unit) :
    init_referral_step post = .ok () := by
  unfold init_referral_step
  split <;> rfl

/-- C4.  In the deposit workflow, a sufficient allowance skips the
approval step and submits exactly one transaction (the deposit call); an
insufficient allowance submits exactly two transactions in order — an
approval for exactly `required_wei` (not unlimited), awaited to receipt,
then the deposit — and the workflow's result is `wait_for_transaction`'s
verdict on the deposit receipt, i.e. `status == 1` when a receipt with
status `st` arrives before the countdown exhausts. -/
theorem deposit_two_phase (env : DepositEnv) (account : String) (sub : ℤ)
    (q : Dec) :
    (decScale q ≤ env.allowance →
      deposit env account sub q =
        ([Txn.depositCall account sub (decScale q) env.assetAddress],
         (wait_for_transaction env.depositPoll 60).1)) ∧
    (env.allowance < decScale q →
      ∀ b s, wait_for_transaction env.approvePoll 60 = (.ok b, s) →
        deposit env account sub q =
          ([Txn.approve env.protocolAddress (decScale q),
            Txn.depositCall account sub (decScale q) env.assetAddress],
           (wait_for_transaction env.depositPoll 60).1)) ∧
    (∀ st k, (∀ j, j < k → env.depositPoll j = PollResult.notFound) →
      env.depositPoll k = PollResult.receipt st → k < 60 →
      (wait_for_transaction env.depositPoll 60).1 = .ok (st == 1)) := by
  refine ⟨?_, ?_, ?_⟩
  · intro h
    simp only [deposit]
    rw [if_neg (not_lt.mpr h)]
  · intro h b s happrove
    simp only [deposit]
    rw [if_pos h, happrove]
  · intro st k h hk hlt
    rw [wait_for_transaction,
      waitLoop_receipt env.depositPoll st k 0 60 0 (by simpa using h)
        (by simpa using hk) hlt]

theorem deposit_two_phase_witness :
    (0 : ℤ) <
      decScale ⟨15, 1⟩ ∧
    wait_for_transaction (fun _ => PollResult.receipt 1) 60 = (.ok true, 0) ∧
    deposit ⟨0, "0xProtocol", "0xAsset", fun _ => PollResult.receipt 1,
        fun _ => PollResult.receipt 1⟩ "0xAcc" 2 ⟨15, 1⟩ =
      ([Txn.approve "0xProtocol" 1500000000000000000,
        Txn.depositCall "0xAcc" 2 1500000000000000000 "0xAsset"],
       .ok true) :=
  ⟨by decide, by decide, by
    have h := (deposit_two_phase
      ⟨0, "0xProtocol", "0xAsset", fun _ => PollResult.receipt 1,
        fun _ => PollResult.receipt 1⟩ "0xAcc" 2 ⟨15, 1⟩).2.1
      (by decide) true 0 (by decide)
    simpa using h⟩

/-- C6 (amended).  When a private key is supplied, construction fails
with `UserInputValidationError` for every `subaccount_id` outside
`[0, 255]`, before any network action; the boundary values `0` and `255`
pass the check and construction succeeds (given a login response);
message building performs no range check, so the check lives at
construction time, not at send time.  When no private key is supplied the
check is skipped entirely (`keyless_construction_skips_range_check`). -/
theorem subaccount_range_checked_at_keyed_construction :
    (∀ key sub env, ¬(0 ≤ sub ∧ sub ≤ 255) →
      clientInit (some key) sub env =
        (.error (.userInputValidationError ("Invalid subaccount_id=" ++
          toString sub ++ ". Expected 0 <= subaccount_id <= 255.")), [])) ∧
    (∀ key env d, env.loginResponse = some d →
      (clientInit (some key) 0 env).1 =
        .ok ⟨.account key, some 0, dictGet d "value"⟩ ∧
      (clientInit (some key) 255 env).1 =
        .ok ⟨.account key, some 255, dictGet d "value"⟩) ∧
    (∀ ts account sub,
      create_order ts account sub 7 ⟨15, 1⟩ .BUY .LIMIT .GTC
          (some ⟨2000025, 2⟩) 0 ≠
        .error (.userInputValidationError ("Invalid subaccount_id=" ++
          toString sub ++ ". Expected 0 <= subaccount_id <= 255."))) := by
  refine ⟨?_, ?_, ?_⟩
  · intro key sub env h
    simp only [clientInit]
    rw [if_pos h]
  · intro key env d hd
    constructor <;>
      · simp only [clientInit]
        rw [if_neg (by norm_num), hd]
        rw [show login (some d) = .ok (dictGet d "value") from rfl]
        rw [init_referral_step_ok]
  · intro ts account sub
    rw [create_order, if_neg (by simp)]
    intro h
    cases h

theorem subaccount_range_witness :
    ¬((0 : ℤ) ≤ 300 ∧ (300 : ℤ) ≤ 255) ∧
    clientInit (some "0xkey") 300 ⟨some [("value", "tok")], none⟩ =
      (.error (.userInputValidationError
        "Invalid subaccount_id=300. Expected 0 <= subaccount_id <= 255."), []) ∧
    (clientInit (some "0xkey") 0 ⟨some [("value", "tok")], none⟩).1 =
      .ok ⟨.account "0xkey", some 0, some "tok"⟩ :=
  ⟨by decide,
   subaccount_range_checked_at_keyed_construction.1 "0xkey" 300
     ⟨some [("value", "tok")], none⟩ (by decide),
   (subaccount_range_checked_at_keyed_construction.2.1 "0xkey"
     ⟨some [("value", "tok")], none⟩ [("value", "tok")] rfl).1⟩

/-- C6 counterexample.  Construction without a private key never reaches
the range check: a keyless client with `subaccount_id = 999` constructs
successfully, so the claim's unconditional "for every subaccount_id
outside [0,255], client construction fails" is false on the code. -/
theorem keyless_construction_skips_range_check :
    clientInit none 999 ⟨none, none⟩ = (.ok ⟨.unset, none, none⟩, []) := rfl

/-- C7 (amended).  `login` builds a `LoginMessage` whose text is exactly
`"I would like to log into {domain} finance"` with the call-time
timestamp and account, POSTs it, and stores `response.get("value")` as
the session credential.  A `null` response fails fatally — but with an
`AttributeError` from `response.get` (the explicit `Failed to login`
raise is unreachable); a non-null response without a usable token does
NOT fail: `login` succeeds and the stored credential is `None`
(`login_without_token_is_silent`). -/
theorem login_message_text_and_token_storage :
    (∀ domainName account ts,
      (build_login_message domainName account ts).message =
        "I would like to log into " ++ domainName ++ " finance") ∧
    (∀ d, login (some d) = .ok (dictGet d "value")) ∧
    login none =
      .error (.attributeError "NoneType object has no attribute get") := by
  exact ⟨fun _ _ _ => rfl, fun _ => rfl, rfl⟩

/-- C7 counterexample.  The login endpoint answers with a JSON object
that carries no token at all (the empty object), yet `login` succeeds and
the stored session credential is `None` — refuting "whenever the endpoint
does not return a usable token, login fails fatally". -/
theorem login_without_token_is_silent : login (some []) = .ok none := rfl

/-- C8 (amended).  Referral binding is attempted exactly once,
immediately after a successful login during keyed construction (and not
at all when login fails).  Inside `set_referral_code`, a failure whose
message contains `"user already referred"` is a no-op and any other
failure is re-raised — but the constructor wraps the call in a broad
`try`/`except Exception: pass`, so no referral-binding failure of any
kind reaches the caller of `__init__`
(`constructor_swallows_referral_failure`). -/
theorem referral_binding_behaviour :
    (∀ key sub env d, 0 ≤ sub → sub ≤ 255 → env.loginResponse = some d →
      (clientInit (some key) sub env).2 =
        [InitAction.login, InitAction.referral] ∧
      (clientInit (some key) sub env).1 =
        .ok ⟨.account key, some sub, dictGet d "value"⟩) ∧
    (∀ key sub env, 0 ≤ sub → sub ≤ 255 → env.loginResponse = none →
      (clientInit (some key) sub env).2 = [InitAction.login] ∧
      (clientInit (some key) sub env).1 =
        .error (.attributeError "NoneType object has no attribute get")) ∧
    (∀ e, containsSub e "user already referred" = true →
      set_referral_code (.error e) = .ok ()) ∧
    (∀ e, containsSub e "user already referred" = false →
      set_referral_code (.error e) = .error (.generic e)) := by
  refine ⟨?_, ?_, ?_, ?_⟩
  · intro key sub env d h0 h255 hd
    simp only [clientInit]
    rw [if_neg (by omega), hd]
    rw [show login (some d) = .ok (dictGet d "value") from rfl]
    rw [init_referral_step_ok]
    exact ⟨rfl, rfl⟩
  · intro key sub env h0 h255 hd
    simp only [clientInit]
    rw [if_neg (by omega), hd]
    exact ⟨rfl, rfl⟩
  · intro e he
    simp only [set_referral_code]
    rw [he]
    rfl
  · intro e he
    simp only [set_referral_code]
    rw [he]
    rfl

theorem referral_binding_behaviour_witness :
    containsSub "boom" "user already referred" = false ∧
    set_referral_code (.error "boom") = .error (.generic "boom") ∧
    (0 : ℤ) ≤ 2 ∧
    (clientInit (some "0xkey") 2
        ⟨some [("value", "tok")], some "server error"⟩).2 =
      [InitAction.login, InitAction.referral] :=
  ⟨by decide,
   referral_binding_behaviour.2.2.2 "boom" (by decide),
   by decide,
   (referral_binding_behaviour.1 "0xkey" 2
      ⟨some [("value", "tok")], some "server error"⟩ [("value", "tok")]
      (by decide) (by decide) rfl).1⟩

/-- C8 counterexample.  A referral-binding failure whose message does not
mention "user already referred" is re-raised by `set_referral_code`
(first conjunct) — yet a keyed construction in which the referral POST
fails with exactly that error still returns a fully constructed client
(second conjunct): the failure is swallowed by `__init__`, not surfaced
to the caller. -/
theorem constructor_swallows_referral_failure :
    set_referral_code (.error "boom") = .error (.generic "boom") ∧
    (clientInit (some "0xkey") 0 ⟨some [("value", "tok")], some "boom"⟩).1 =
      .ok ⟨.account "0xkey", some 0, some "tok"⟩ := by
  exact ⟨by decide, by decide⟩

theorem from_message_getD (message : List (String × PyVal)) (i : ℕ)
    (hi : i < message.length) :
    (from_message_to_payload message).getD i ("", .str "") =
      (if (message.getD i ("", .str "")).1 ∈ STRING_KEYS
       then ((message.getD i ("", .str "")).1,
             .str (pyStr (message.getD i ("", .str "")).2))
       else message.getD i ("", .str "")) := by
  induction message generalizing i with
  | nil => simp at hi
  | cons kv tl ih =>
    cases i with
    | zero =>
      simp only [from_message_to_payload, List.map_cons, List.getD_cons_zero]
    | succ n =>
      simp only [from_message_to_payload, List.map_cons, List.getD_cons_succ]
      exact ih n (by simpa using hi)

/-- C9.  The payload the dispatcher transmits is the canonicalization of
the outgoing message: the value of every entry whose key is `"price"` or
`"quantity"` is replaced by its string form (the decimal string, for the
integer values the builders put there), and every other entry is
unchanged; `send_message_to_endpoint` sends exactly
`from_message_to_payload message`. -/
theorem payload_string_encoding (message : List (String × PyVal)) :
    (from_message_to_payload message).length = message.length ∧
    (∀ i, i < message.length →
      ((message.getD i ("", .str "")).1 ∉ STRING_KEYS →
        (from_message_to_payload message).getD i ("", .str "") =
          message.getD i ("", .str "")) ∧
      (∀ k n, message.getD i ("", .str "") = (k, PyVal.int n) →
        k ∈ STRING_KEYS →
        (from_message_to_payload message).getD i ("", .str "") =
          (k, .str (toString n)))) ∧
    (∀ wallet endpoint status payload,
      send_message_to_endpoint wallet endpoint message status = .ok payload →
      payload = from_message_to_payload message) := by
  refine ⟨List.length_map _ _, ?_, ?_⟩
  · intro i hi
    constructor
    · intro hnot
      rw [from_message_getD message i hi, if_neg hnot]
    · intro k n hkv hk
      rw [from_message_getD message i hi, hkv]
      rw [if_pos hk]
      rfl
  · intro wallet endpoint status payload h
    rw [send_message_to_endpoint] at h
    cases hv : validate_function wallet endpoint with
    | error e =>
      rw [hv, except_bind_error] at h
      cases h
    | ok v =>
      rw [hv, except_bind_ok] at h
      split_ifs at h
      exact (Except.ok.inj h).symm

theorem payload_string_encoding_witness :
    (0 : ℕ) < 2 ∧
    (from_message_to_payload
        [("price", .int 3), ("foo", .bool true)]).getD 0 ("", .str "") =
      ("price", PyVal.str (toString (3 : ℤ))) ∧
    (from_message_to_payload
        [("price", .int 3), ("foo", .bool true)]).getD 1 ("", .str "") =
      ("foo", PyVal.bool true) :=
  ⟨by decide,
   ((payload_string_encoding [("price", .int 3), ("foo", .bool true)]).2.1
      0 (by decide)).2 "price" 3 (by decide) (by decide),
   ((payload_string_encoding [("price", .int 3), ("foo", .bool true)]).2.1
      1 (by decide)).1 (by decide)⟩

theorem validate_function_ok_eq (wallet : WalletAttr) (endpoint : String) :
    ∀ r, validate_function wallet endpoint = .ok r → r = some true := by
  intro r h
  rw [validate_function] at h
  by_cases h1 : endpoint ∉ private_functions ++ public_functions
  · rw [if_pos h1] at h
    cases h
  · rw [if_neg h1] at h
    by_cases h2 : endpoint ∈ public_functions
    · rw [if_pos h2] at h
      exact (Except.ok.inj h).symm
    · rw [if_neg h2] at h
      by_cases h3 : endpoint ∈ private_functions
      · rw [if_pos h3] at h
        cases wallet with
        | unset =>
          simp only [show walletTruthy WalletAttr.unset =
              Except.error (PyError.attributeError
                "CitrexClient object has no attribute wallet") from rfl,
            except_bind_error] at h
          cases h
        | account key =>
          simp only [show walletTruthy (WalletAttr.account key) =
              Except.ok true from rfl, except_bind_ok] at h
          rw [if_neg (by decide)] at h
          exact (Except.ok.inj h).symm
      · rw [if_neg h3] at h
        exfalso
        rw [not_not] at h1
        rcases List.mem_append.mp h1 with hp | hq
        · exact h3 hp
        · exact h2 hq

theorem validate_function_error_ne (wallet : WalletAttr) (endpoint : String)
    (err : PyError) (h : validate_function wallet endpoint = .error err) :
    err ≠ .clientError ("Invalid endpoint: " ++ endpoint) := by
  rw [validate_function] at h
  by_cases h1 : endpoint ∉ private_functions ++ public_functions
  · rw [if_pos h1] at h
    obtain rfl := (Except.error.inj h).symm
    intro heq
    have hs := PyError.clientError.inj heq
    have hlen := congrArg String.length hs
    simp only [String.length_append] at hlen
    have hB : (0 : ℕ) < " Not in ".length := by decide
    omega
  · rw [if_neg h1] at h
    by_cases h2 : endpoint ∈ public_functions
    · rw [if_pos h2] at h
      cases h
    · rw [if_neg h2] at h
      by_cases h3 : endpoint ∈ private_functions
      · rw [if_pos h3] at h
        cases wallet with
        | unset =>
          simp only [show walletTruthy WalletAttr.unset =
              Except.error (PyError.attributeError
                "CitrexClient object has no attribute wallet") from rfl,
            except_bind_error] at h
          obtain rfl := (Except.error.inj h).symm
          intro heq
          cases heq
        | account key =>
          simp only [show walletTruthy (WalletAttr.account key) =
              Except.ok true from rfl, except_bind_ok] at h
          rw [if_neg (by decide)] at h
          cases h
      · rw [if_neg h3] at h
        cases h

/-- C10.  For every endpoint in the known route lists,
`_validate_function` either raises or returns `True` — never a falsy
value — and consequently the secondary `Invalid endpoint` `ClientError`
raise inside `send_message_to_endpoint` is unreachable for every wallet
state, endpoint, message and response status. -/
theorem validate_total_and_secondary_raise_unreachable :
    (∀ wallet endpoint, endpoint ∈ private_functions ++ public_functions →
      (∃ err, validate_function wallet endpoint = .error err) ∨
        validate_function wallet endpoint = .ok (some true)) ∧
    (∀ wallet endpoint message status,
      send_message_to_endpoint wallet endpoint message status ≠
        .error (.clientError ("Invalid endpoint: " ++ endpoint))) := by
  constructor
  · intro wallet endpoint _
    cases hv : validate_function wallet endpoint with
    | error e => exact .inl ⟨e, rfl⟩
    | ok v =>
      right
      rw [validate_function_ok_eq wallet endpoint v hv]
  · intro wallet endpoint message status h
    rw [send_message_to_endpoint] at h
    cases hv : validate_function wallet endpoint with
    | error e =>
      rw [hv, except_bind_error] at h
      exact validate_function_error_ne wallet endpoint e hv (Except.error.inj h)
    | ok v =>
      have hv' := validate_function_ok_eq wallet endpoint v hv
      subst hv'
      rw [hv, except_bind_ok, if_neg (by decide)] at h
      split_ifs at h
      exact PyError.noConfusion (Except.error.inj h)

theorem validate_total_witness :
    ("/v1/order" ∈ private_functions ++ public_functions) ∧
    ((∃ err, validate_function .unset "/v1/order" = .error err) ∨
      validate_function .unset "/v1/order" = .ok (some true)) ∧
    send_message_to_endpoint .unset "/v1/products" [] 200 ≠
      .error (.clientError ("Invalid endpoint: " ++ "/v1/products")) :=
  ⟨by decide,
   validate_total_and_secondary_raise_unreachable.1 .unset "/v1/order"
     (by decide),
   validate_total_and_secondary_raise_unreachable.2 .unset "/v1/products"
     [] 200⟩

end Citrex


